import Mathlib

/-!
Verification of the keyword sentiment scorer of the `cicd-with-ml`
repository.  The scorer logic appears three times in the sources, with
small variations:

* `api/app.py` — `predict_sentiment` (no empty-text check) wrapped by the
  `/predict` endpoint, which rejects blank text;
* `src/serving-pipeline/model.py` — `SentimentModel._analyze_sentiment`
  (empty-text check returning an error marker) wrapped by the batch
  `predict` handler;
* `src/training-pipeline/train_model.py` — `SimpleModelTrainer`, with
  `extract_features` (lexicon derivation) and `_predict_single`.

Python floats are modelled by exact rationals (`ℚ`); every confidence the
code can produce is a multiple of 1/10, where exact arithmetic and binary
floating point agree after rounding to two decimal places.
-/

/-- Model of the ASCII whitespace characters recognised by Python's
`str.strip()` / `str.split()` (space, tab, newline, carriage return,
vertical tab, form feed). -/
def isSpaceChar (c : Char) : Bool :=
  c == ' ' || c == '\t' || c == '\n' || c == '\r' || c == '\x0b' || c == '\x0c'

/-- Model of Python `text.lower()` (ASCII case folding, which covers every
string appearing in the repository). -/
def lowerStr (s : String) : String :=
  ⟨s.data.map Char.toLower⟩

/-- Model of Python `text.strip()`: remove leading and trailing whitespace. -/
def pyStrip (s : String) : String :=
  ⟨((s.data.dropWhile isSpaceChar).reverse.dropWhile isSpaceChar).reverse⟩

/-- Model of the Python condition `not text or not text.strip()` used by
`SentimentModel._analyze_sentiment` (model.py line 89): the text is empty or
consists only of whitespace. -/
def isBlank (s : String) : Bool :=
  s.data.isEmpty || (pyStrip s).data.isEmpty

/-- Decides whether the character list `n` occurs as a contiguous prefix of
`h`; building block for substring containment. -/
def startsWith : List Char → List Char → Bool
  | [], _ => true
  | _ :: _, [] => false
  | a :: as, b :: bs => a == b && startsWith as bs

/-- Decides whether `n` occurs contiguously anywhere inside `h`. -/
def substrB (n : List Char) : List Char → Bool
  | [] => n.isEmpty
  | c :: t => startsWith n (c :: t) || substrB n t

/-- Model of the Python membership test `w in t` on strings: substring
containment. -/
def occursIn (w t : String) : Bool :=
  substrB w.data t.data

/-- Model of `sum(1 for word in words if word in text_lower)` (app.py
lines 66-67, model.py lines 99-100, train_model.py lines 189-194). -/
def countHits (words : List String) (text_lower : String) : ℕ :=
  (words.filter (fun w => occursIn w text_lower)).length

/-- Model of Python `round(q, 2)`.  On the confidences reachable in this
program (multiples of 1/10) rounding is the identity, so the difference
between Python's banker's rounding and round-half-up is immaterial. -/
def round2 (q : ℚ) : ℚ :=
  (round (q * 100) : ℚ) / 100

/-- Model of Python `min(a, b)` on two numbers: `a` when `a <= b`,
otherwise `b` (provably equal to `min`, see `pymin_eq_min`). -/
def pymin (a b : ℚ) : ℚ :=
  if a ≤ b then a else b

/-- The hardcoded positive word list (app.py lines 40-52, duplicated in
model.py lines 19-31). -/
def positive_words : List String :=
  ["good", "great", "excellent", "amazing", "wonderful", "fantastic",
   "awesome", "love", "like", "happy", "joy"]

/-- The hardcoded negative word list (app.py lines 53-64, duplicated in
model.py lines 32-43). -/
def negative_words : List String :=
  ["bad", "terrible", "awful", "horrible", "hate", "dislike", "sad",
   "angry", "disappointed", "worst"]

/-- Result dictionary of `predict_sentiment` in app.py. -/
structure Prediction where
  sentiment : String
  confidence : ℚ
deriving DecidableEq

/-- Embedding of `predict_sentiment` (app.py lines 33-79).  The source
hardcodes the two word lists as local literals; they are passed here as
arguments so that properties quantified over every lexicon can be stated,
and the endpoint below instantiates them with `positive_words` /
`negative_words` exactly as the source spells them out. -/
def predict_sentiment (pos neg : List String) (text : String) : Prediction :=
  let text_lower := lowerStr text
  let positive_count := countHits pos text_lower
  let negative_count := countHits neg text_lower
  let sc : String × ℚ :=
    if positive_count > negative_count then
      ("positive", pymin 0.9 (0.6 + ((positive_count : ℚ) - negative_count) * 0.1))
    else if negative_count > positive_count then
      ("negative", pymin 0.9 (0.6 + ((negative_count : ℚ) - positive_count) * 0.1))
    else
      ("neutral", 0.5)
  { sentiment := sc.1, confidence := round2 sc.2 }

/-- The `PredictionResponse` pydantic model of app.py. -/
structure PredictionResponse where
  text : String
  sentiment : String
  confidence : ℚ
deriving DecidableEq

/-- A FastAPI `HTTPException`, carrying a status code and a detail string. -/
structure HTTPException where
  status_code : ℕ
  detail : String
deriving DecidableEq

/-- Body of the `try:` block of the `/predict` endpoint (app.py lines
99-117): blank text raises `HTTPException(400, "Text cannot be empty")`,
otherwise the scorer runs and the response is assembled.  Raising an
exception is modelled by `Except.error`. -/
def predict_body (text : String) : Except HTTPException PredictionResponse :=
  if (pyStrip text).data.isEmpty then
    Except.error { status_code := 400, detail := "Text cannot be empty" }
  else
    let prediction := predict_sentiment positive_words negative_words text
    Except.ok { text := text, sentiment := prediction.sentiment,
                confidence := prediction.confidence }

/-- Embedding of the `/predict` endpoint (app.py lines 94-121).  The
`except Exception` clause catches every exception raised inside the `try:`
block — including the `HTTPException(400)` raised for blank text, since
FastAPI's `HTTPException` subclasses `Exception` — and replaces it with
`HTTPException(500, "Internal server error")`. -/
def predict (text : String) : Except HTTPException PredictionResponse :=
  match predict_body text with
  | Except.ok r => Except.ok r
  | Except.error _ =>
      Except.error { status_code := 500, detail := "Internal server error" }

/-- Result dictionary of `SentimentModel._analyze_sentiment` (model.py):
the analysed text, a sentiment, a confidence, and the optional
`"error"` key present only for blank input. -/
structure ScoreResult where
  text : String
  sentiment : String
  confidence : ℚ
  error : Option String
deriving DecidableEq

/-- The `SentimentModel` class of model.py: its mutable instance state
(`name`, `ready` and the two word lists set by `__init__`). -/
structure SentimentModel where
  name : String
  ready : Bool
  positive_words : List String
  negative_words : List String
deriving DecidableEq

/-- The model instance built by `SentimentModel("sentiment-model")`
(model.py `__init__`). -/
def defaultModel : SentimentModel :=
  { name := "sentiment-model", ready := false,
    positive_words := positive_words, negative_words := negative_words }

/-- Embedding of `SentimentModel.load` (model.py lines 45-49): the only
method that mutates the instance, setting the `ready` flag. -/
def SentimentModel.load (m : SentimentModel) : SentimentModel :=
  { m with ready := true }

/-- Embedding of `SentimentModel._analyze_sentiment` (model.py lines
85-116).  Methods are modelled as state transformers returning the
post-state of `self` together with the result; the body assigns no field
of `self`, so the pre-state is returned unchanged. -/
def SentimentModel.analyze_sentiment (m : SentimentModel) (text : String) :
    SentimentModel × ScoreResult :=
  if isBlank text then
    (m, { text := text, sentiment := "neutral", confidence := 0.0,
          error := some "Empty text provided" })
  else
    let text_lower := lowerStr text
    let positive_count := countHits m.positive_words text_lower
    let negative_count := countHits m.negative_words text_lower
    let sc : String × ℚ :=
      if positive_count > negative_count then
        ("positive", pymin 0.9 (0.6 + ((positive_count : ℚ) - negative_count) * 0.1))
      else if negative_count > positive_count then
        ("negative", pymin 0.9 (0.6 + ((negative_count : ℚ) - positive_count) * 0.1))
      else
        ("neutral", 0.5)
    (m, { text := text, sentiment := sc.1, confidence := round2 sc.2,
          error := none })

/-- One element of the `instances` list of a KServe payload: a raw string,
a JSON object (whose optional `text` and `data` fields are modelled), or
any other value, carried as its `str()` rendering. -/
inductive BatchInstance where
  | str (s : String)
  | dict (text : Option String) (data : Option String)
  | other (s : String)
deriving DecidableEq

/-- Text extraction of the `predict` loop (model.py lines 71-77):
`instance` itself for strings, `instance.get("text", instance.get("data",
""))` for dicts, `str(instance)` otherwise. -/
def instanceText : BatchInstance → String
  | BatchInstance.str s => s
  | BatchInstance.dict t d => t.getD (d.getD "")
  | BatchInstance.other s => s

/-- The `for instance in instances` loop of `SentimentModel.predict`
(model.py lines 70-81), threading the instance state through each
`_analyze_sentiment` call and accumulating the results in order. -/
def SentimentModel.predictLoop (m : SentimentModel) :
    List BatchInstance → SentimentModel × List ScoreResult
  | [] => (m, [])
  | inst :: rest =>
      let step := m.analyze_sentiment (instanceText inst)
      let tail := step.1.predictLoop rest
      (tail.1, step.2 :: tail.2)

/-- Embedding of `SentimentModel.predict` (model.py lines 51-83).
`payload.get("instances", [])` is modelled by an optional list (`none` when
the key is absent); a missing or empty list short-circuits to an empty
prediction list. -/
def SentimentModel.predict (m : SentimentModel)
    (instances : Option (List BatchInstance)) :
    SentimentModel × List ScoreResult :=
  let insts := instances.getD []
  if insts.isEmpty then (m, [])
  else m.predictLoop insts

/-- Embedding of `SimpleModelTrainer._predict_single` (train_model.py lines
183-200): `model_data` is `none` when the trainer has not run (the `if not
self.model_data` guard), otherwise it carries the positive and negative
word lists. -/
def predict_single (model_data : Option (List String × List String))
    (text : String) : String :=
  match model_data with
  | none => "neutral"
  | some md =>
      let text_lower := lowerStr text
      let positive_count := countHits md.1 text_lower
      let negative_count := countHits md.2 text_lower
      if positive_count > negative_count then "positive"
      else if negative_count > positive_count then "negative"
      else "neutral"

/-- Auxiliary recursion for Python `s.split()`: split into maximal runs of
non-whitespace characters, dropping empty fields.  `acc` holds the current
run, reversed. -/
def splitWordsAux (acc : List Char) : List Char → List (List Char)
  | [] => if acc.isEmpty then [] else [acc.reverse]
  | c :: rest =>
      if isSpaceChar c then
        if acc.isEmpty then splitWordsAux [] rest
        else acc.reverse :: splitWordsAux [] rest
      else splitWordsAux (c :: acc) rest

/-- Model of Python `s.split()` (no separator argument): whitespace
splitting with empty fields discarded. -/
def pySplit (s : String) : List String :=
  (splitWordsAux [] s.data).map (fun l => ⟨l⟩)

/-- The set of words contributed by one training example:
`set(text.lower().split())` (train_model.py line 78). -/
def wordSet (text : String) : Finset String :=
  (pySplit (lowerStr text)).toFinset

/-- Body of the `for text, label in data` loop of `extract_features`
(train_model.py lines 77-82): update the positive or negative word set
according to the label, ignoring other labels. -/
def collectStep (acc : Finset String × Finset String) (tl : String × String) :
    Finset String × Finset String :=
  if tl.2 = "positive" then (acc.1 ∪ wordSet tl.1, acc.2)
  else if tl.2 = "negative" then (acc.1, acc.2 ∪ wordSet tl.1)
  else acc

/-- The loop of `extract_features`, accumulating the raw positive and
negative word sets over the corpus. -/
def collectWords (data : List (String × String)) :
    Finset String × Finset String :=
  data.foldl collectStep (∅, ∅)

/-- Result dictionary of `extract_features`, with the word lists read back
as sets (the source materialises them with `list(...)` in unspecified
order). -/
structure Features where
  positive_words : Finset String
  negative_words : Finset String
  common_words : Finset String
deriving DecidableEq

/-- Embedding of `SimpleModelTrainer.extract_features` (train_model.py
lines 72-93): collect the word sets, then remove the words common to
both. -/
def extract_features (data : List (String × String)) : Features :=
  let pn := collectWords data
  let common_words := pn.1 ∩ pn.2
  { positive_words := pn.1 \ common_words,
    negative_words := pn.2 \ common_words,
    common_words := common_words }

/-! ### Arithmetic facts about the confidence computation -/

/-- The Python `min` model agrees with `min` on `ℚ`. -/
theorem pymin_eq_min (a b : ℚ) : pymin a b = min a b := by
  rw [min_def]; rfl

/-- Rounding to two decimal places leaves a multiple of one tenth
unchanged. -/
theorem round2_tenths (n : ℤ) : round2 ((n : ℚ) / 10) = (n : ℚ) / 10 := by
  unfold round2
  have h : (n : ℚ) / 10 * 100 = ((10 * n : ℤ) : ℚ) := by push_cast; ring
  rw [h, round_intCast]
  push_cast; ring

theorem conf_as_tenths (n : ℕ) :
    (0.6 : ℚ) + (n : ℚ) * 0.1 = (((6 + n : ℕ) : ℤ) : ℚ) / 10 := by
  push_cast; ring_nf

/-- The clamped confidence is a multiple of one tenth, so `round2` fixes
it. -/
theorem round2_clamp (n : ℕ) :
    round2 (pymin 0.9 (0.6 + (n : ℚ) * 0.1)) = pymin 0.9 (0.6 + (n : ℚ) * 0.1) := by
  unfold pymin
  split
  · have h9 : (0.9 : ℚ) = ((9 : ℤ) : ℚ) / 10 := by norm_num
    rw [h9, round2_tenths]
  · rw [conf_as_tenths, round2_tenths]

theorem round2_half : round2 0.5 = 0.5 := by
  have h : (0.5 : ℚ) = ((5 : ℤ) : ℚ) / 10 := by norm_num
  rw [h, round2_tenths]

theorem clamp_nonneg (n : ℕ) : 0 ≤ pymin (0.9 : ℚ) (0.6 + (n : ℚ) * 0.1) := by
  unfold pymin; split <;> positivity

theorem clamp_le (n : ℕ) : pymin (0.9 : ℚ) (0.6 + (n : ℚ) * 0.1) ≤ 0.9 := by
  unfold pymin
  split
  · exact le_refl _
  · next h => exact le_of_not_le h

/-- Casting the Nat difference of the counts to `ℚ` agrees with rational
subtraction when the subtrahend is smaller. -/
theorem cast_sub_of_lt {a b : ℕ} (h : b < a) :
    ((a : ℚ) - b) = (((a - b : ℕ)) : ℚ) := by
  rw [Nat.cast_sub h.le]

/-! ### Blank-text facts -/

/-- Stripping a whitespace-only string yields the empty string. -/
theorem pyStrip_blank (s : String) (h : ∀ c ∈ s.data, isSpaceChar c = true) :
    (pyStrip s).data = [] := by
  have h1 : s.data.dropWhile isSpaceChar = [] := List.dropWhile_eq_nil_iff.mpr h
  simp [pyStrip, h1]

theorem isBlank_of_all_space (s : String) (h : ∀ c ∈ s.data, isSpaceChar c = true) :
    isBlank s = true := by
  simp [isBlank, pyStrip_blank s h]

/-! ### Branch characterisations of the scorer variants -/

theorem predict_sentiment_pos_eq (pos neg : List String) (text : String)
    (h : countHits neg (lowerStr text) < countHits pos (lowerStr text)) :
    predict_sentiment pos neg text =
      { sentiment := "positive",
        confidence := min 0.9 (0.6 +
          ((countHits pos (lowerStr text) : ℚ) - countHits neg (lowerStr text)) * 0.1) } := by
  have hc : ((countHits pos (lowerStr text) : ℚ) - countHits neg (lowerStr text)) =
      (((countHits pos (lowerStr text) - countHits neg (lowerStr text) : ℕ)) : ℚ) :=
    cast_sub_of_lt h
  simp only [predict_sentiment, gt_iff_lt, if_pos h]
  rw [Prediction.mk.injEq]
  refine ⟨rfl, ?_⟩
  rw [hc, round2_clamp, ← hc, pymin_eq_min]

theorem predict_sentiment_neg_eq (pos neg : List String) (text : String)
    (h : countHits pos (lowerStr text) < countHits neg (lowerStr text)) :
    predict_sentiment pos neg text =
      { sentiment := "negative",
        confidence := min 0.9 (0.6 +
          ((countHits neg (lowerStr text) : ℚ) - countHits pos (lowerStr text)) * 0.1) } := by
  have hc : ((countHits neg (lowerStr text) : ℚ) - countHits pos (lowerStr text)) =
      (((countHits neg (lowerStr text) - countHits pos (lowerStr text) : ℕ)) : ℚ) :=
    cast_sub_of_lt h
  simp only [predict_sentiment, gt_iff_lt, if_neg (Nat.lt_asymm h), if_pos h]
  rw [Prediction.mk.injEq]
  refine ⟨rfl, ?_⟩
  rw [hc, round2_clamp, ← hc, pymin_eq_min]

theorem predict_sentiment_tie_eq (pos neg : List String) (text : String)
    (h : countHits pos (lowerStr text) = countHits neg (lowerStr text)) :
    predict_sentiment pos neg text = { sentiment := "neutral", confidence := 0.5 } := by
  simp only [predict_sentiment, gt_iff_lt, h, lt_irrefl, if_false, if_neg]
  rw [Prediction.mk.injEq]
  exact ⟨rfl, round2_half⟩

theorem analyze_blankB (m : SentimentModel) (text : String) (hb : isBlank text = true) :
    (m.analyze_sentiment text).2 =
      { text := text, sentiment := "neutral", confidence := 0.0,
        error := some "Empty text provided" } := by
  simp [SentimentModel.analyze_sentiment, hb]

theorem analyze_blank (m : SentimentModel) (text : String)
    (h : ∀ c ∈ text.data, isSpaceChar c = true) :
    (m.analyze_sentiment text).2 =
      { text := text, sentiment := "neutral", confidence := 0.0,
        error := some "Empty text provided" } :=
  analyze_blankB m text (isBlank_of_all_space text h)

theorem analyze_pos_eq (m : SentimentModel) (text : String) (hb : isBlank text = false)
    (h : countHits m.negative_words (lowerStr text) <
         countHits m.positive_words (lowerStr text)) :
    (m.analyze_sentiment text).2 =
      { text := text, sentiment := "positive",
        confidence := min 0.9 (0.6 +
          ((countHits m.positive_words (lowerStr text) : ℚ) -
            countHits m.negative_words (lowerStr text)) * 0.1),
        error := none } := by
  have hc : ((countHits m.positive_words (lowerStr text) : ℚ) -
      countHits m.negative_words (lowerStr text)) =
      (((countHits m.positive_words (lowerStr text) -
         countHits m.negative_words (lowerStr text) : ℕ)) : ℚ) :=
    cast_sub_of_lt h
  simp only [SentimentModel.analyze_sentiment, hb, Bool.false_eq_true, if_false,
    gt_iff_lt, if_pos h]
  rw [ScoreResult.mk.injEq]
  refine ⟨rfl, rfl, ?_, rfl⟩
  rw [hc, round2_clamp, ← hc, pymin_eq_min]

theorem analyze_neg_eq (m : SentimentModel) (text : String) (hb : isBlank text = false)
    (h : countHits m.positive_words (lowerStr text) <
         countHits m.negative_words (lowerStr text)) :
    (m.analyze_sentiment text).2 =
      { text := text, sentiment := "negative",
        confidence := min 0.9 (0.6 +
          ((countHits m.negative_words (lowerStr text) : ℚ) -
            countHits m.positive_words (lowerStr text)) * 0.1),
        error := none } := by
  have hc : ((countHits m.negative_words (lowerStr text) : ℚ) -
      countHits m.positive_words (lowerStr text)) =
      (((countHits m.negative_words (lowerStr text) -
         countHits m.positive_words (lowerStr text) : ℕ)) : ℚ) :=
    cast_sub_of_lt h
  simp only [SentimentModel.analyze_sentiment, hb, Bool.false_eq_true, if_false,
    gt_iff_lt, if_neg (Nat.lt_asymm h), if_pos h]
  rw [ScoreResult.mk.injEq]
  refine ⟨rfl, rfl, ?_, rfl⟩
  rw [hc, round2_clamp, ← hc, pymin_eq_min]

theorem analyze_tie_eq (m : SentimentModel) (text : String) (hb : isBlank text = false)
    (h : countHits m.positive_words (lowerStr text) =
         countHits m.negative_words (lowerStr text)) :
    (m.analyze_sentiment text).2 =
      { text := text, sentiment := "neutral", confidence := 0.5, error := none } := by
  simp only [SentimentModel.analyze_sentiment, hb, Bool.false_eq_true, if_false,
    gt_iff_lt, h, lt_irrefl, if_neg]
  rw [ScoreResult.mk.injEq]
  exact ⟨rfl, rfl, round2_half, rfl⟩

/-! ### State threading of the serving model -/

theorem analyze_fst (m : SentimentModel) (text : String) :
    (m.analyze_sentiment text).1 = m := by
  unfold SentimentModel.analyze_sentiment
  split <;> rfl

theorem predictLoop_fst (m : SentimentModel) (l : List BatchInstance) :
    (m.predictLoop l).1 = m := by
  induction l with
  | nil => rfl
  | cons inst rest ih =>
      simp only [SentimentModel.predictLoop, analyze_fst]
      exact ih

theorem predictLoop_snd (m : SentimentModel) (l : List BatchInstance) :
    (m.predictLoop l).2 = l.map fun b => (m.analyze_sentiment (instanceText b)).2 := by
  induction l with
  | nil => rfl
  | cons inst rest ih =>
      simp only [SentimentModel.predictLoop, analyze_fst, List.map_cons]
      rw [ih]

theorem predict_fst (m : SentimentModel) (payload : Option (List BatchInstance)) :
    (m.predict payload).1 = m := by
  simp only [SentimentModel.predict]
  split
  · rfl
  · exact predictLoop_fst m _

theorem predict_some_snd (m : SentimentModel) (insts : List BatchInstance) :
    (m.predict (some insts)).2 =
      insts.map fun b => (m.analyze_sentiment (instanceText b)).2 := by
  cases insts with
  | nil => rfl
  | cons inst rest =>
      simp only [SentimentModel.predict, Option.getD_some, List.isEmpty_cons,
        if_false, Bool.false_eq_true]
      exact predictLoop_snd m _

/-! ### Substring containment -/

theorem startsWith_iff (n : List Char) : ∀ h : List Char,
    (startsWith n h = true ↔ ∃ r, h = n ++ r) := by
  induction n with
  | nil => intro h; simp [startsWith]
  | cons a as ih =>
      intro h
      cases h with
      | nil =>
          simp [startsWith]
      | cons b bs =>
          simp only [startsWith, Bool.and_eq_true, beq_iff_eq]
          constructor
          · rintro ⟨hab, hsw⟩
            obtain ⟨r, hr⟩ := (ih bs).mp hsw
            exact ⟨r, by rw [hab, hr]; rfl⟩
          · rintro ⟨r, hr⟩
            injection hr with h1 h2
            exact ⟨h1.symm, (ih bs).mpr ⟨r, h2⟩⟩

theorem substrB_iff (n : List Char) : ∀ h : List Char,
    (substrB n h = true ↔ ∃ l r, h = l ++ n ++ r) := by
  intro h
  induction h with
  | nil =>
      simp only [substrB, List.isEmpty_iff]
      constructor
      · intro hn; exact ⟨[], [], by simp [hn]⟩
      · rintro ⟨l, r, hr⟩
        rcases List.append_eq_nil.mp hr.symm with ⟨hln, hrn⟩
        rcases List.append_eq_nil.mp hln with ⟨_, hn2⟩
        exact hn2
  | cons c t ih =>
      simp only [substrB, Bool.or_eq_true, startsWith_iff, ih]
      constructor
      · rintro (⟨r, hr⟩ | ⟨l, r, hr⟩)
        · exact ⟨[], r, by simp [hr]⟩
        · exact ⟨c :: l, r, by rw [hr]; rfl⟩
      · rintro ⟨l, r, hr⟩
        cases l with
        | nil => exact Or.inl ⟨r, by simpa using hr⟩
        | cons x xs =>
            injection hr with h1 h2
            exact Or.inr ⟨xs, r, h2⟩

/-! ### Lexicon derivation -/

/-- Words contributed to the positive set by a labeled corpus, example by
example. -/
def posW : List (String × String) → Finset String
  | [] => ∅
  | tl :: rest => (if tl.2 = "positive" then wordSet tl.1 else ∅) ∪ posW rest

/-- Words contributed to the negative set by a labeled corpus. -/
def negW : List (String × String) → Finset String
  | [] => ∅
  | tl :: rest => (if tl.2 = "negative" then wordSet tl.1 else ∅) ∪ negW rest

theorem foldl_collectStep (data : List (String × String)) :
    ∀ acc : Finset String × Finset String,
      data.foldl collectStep acc = (acc.1 ∪ posW data, acc.2 ∪ negW data) := by
  induction data with
  | nil => intro acc; simp [posW, negW]
  | cons tl rest ih =>
      intro acc
      rw [List.foldl_cons, ih]
      by_cases h1 : tl.2 = "positive"
      · simp [collectStep, posW, negW, h1, Finset.union_assoc]
      · by_cases h2 : tl.2 = "negative"
        · simp [collectStep, posW, negW, h1, h2, Finset.union_assoc]
        · simp [collectStep, posW, negW, h1, h2]

theorem collectWords_eq (data : List (String × String)) :
    collectWords data = (posW data, negW data) := by
  rw [collectWords, foldl_collectStep]
  simp

/-! ### Claim theorems -/

theorem extract_features_eq (data : List (String × String)) :
    extract_features data =
      { positive_words := posW data \ (posW data ∩ negW data),
        negative_words := negW data \ (posW data ∩ negW data),
        common_words := posW data ∩ negW data } := by
  unfold extract_features
  rw [collectWords_eq data]

/-- C6: `extract_features` returns as positive words exactly the lowercased
whitespace-split words of positive-labeled examples minus those occurring
in negative-labeled examples, symmetrically for negative words, the two
derived sets are disjoint; and on the two-example corpus of the spec it
puts "this"/"i" into the common set, "love" into positive-only and "hate"
into negative-only. -/
theorem C6_extract_features_characterisation (data : List (String × String)) :
    ((extract_features data).positive_words = posW data \ negW data ∧
     (extract_features data).negative_words = negW data \ posW data ∧
     (extract_features data).common_words = posW data ∩ negW data ∧
     Disjoint (extract_features data).positive_words
       (extract_features data).negative_words) ∧
    extract_features [("I love this", "positive"), ("I hate this", "negative")] =
      { positive_words := {"love"}, negative_words := {"hate"},
        common_words := {"this", "i"} } := by
  have e1 : posW data \ (posW data ∩ negW data) = posW data \ negW data :=
    Finset.sdiff_inter_self_left _ _
  have e2 : negW data \ (posW data ∩ negW data) = negW data \ posW data := by
    rw [Finset.inter_comm]
    exact Finset.sdiff_inter_self_left _ _
  refine ⟨⟨?_, ?_, ?_, ?_⟩, ?_⟩
  · rw [extract_features_eq data]; exact e1
  · rw [extract_features_eq data]; exact e2
  · rw [extract_features_eq data]
  · rw [extract_features_eq data]
    show Disjoint (posW data \ (posW data ∩ negW data))
      (negW data \ (posW data ∩ negW data))
    rw [e1, e2]
    exact disjoint_sdiff_sdiff
  · have h1 : pySplit (lowerStr "I love this") = ["i", "love", "this"] := by decide
    have h2 : pySplit (lowerStr "I hate this") = ["i", "hate", "this"] := by decide
    have hp : posW [("I love this", "positive"), ("I hate this", "negative")] =
        ({"i", "love", "this"} : Finset String) := by
      simp [posW, wordSet, h1]
    have hn : negW [("I love this", "positive"), ("I hate this", "negative")] =
        ({"i", "hate", "this"} : Finset String) := by
      simp [negW, wordSet, h2]
    rw [extract_features_eq, hp, hn, Features.mk.injEq]
    refine ⟨?_, ?_, ?_⟩ <;> exact Finset.Subset.antisymm (by decide) (by decide)

/-- C4 evaluation: on empty and whitespace-only input the `/predict`
endpoint does raise `HTTPException(400, "Text cannot be empty")` inside the
`try:` block without invoking the scorer, but the surrounding
`except Exception` handler converts it into a 500 "Internal server error",
so the HTTP client observes 500, not the 400 asserted by the claim and by
the repository's own tests. -/
theorem C4_blank_text_yields_500 :
    predict "" = Except.error { status_code := 500, detail := "Internal server error" } ∧
    predict "   " = Except.error { status_code := 500, detail := "Internal server error" } ∧
    predict_body "" = Except.error { status_code := 400, detail := "Text cannot be empty" } ∧
    predict_body "   " = Except.error { status_code := 400, detail := "Text cannot be empty" } := by
  refine ⟨rfl, rfl, rfl, rfl⟩

/-- C3: for every model state (hence every lexicon) and every empty or
whitespace-only text, `_analyze_sentiment` reports sentiment "neutral"
with confidence 0.0. -/
theorem C3_blank_text_neutral_zero (m : SentimentModel) (text : String)
    (h : ∀ c ∈ text.data, isSpaceChar c = true) :
    (m.analyze_sentiment text).2.sentiment = "neutral" ∧
    (m.analyze_sentiment text).2.confidence = 0 := by
  rw [analyze_blank m text h]
  exact ⟨rfl, by norm_num⟩

theorem C3_blank_text_neutral_zero_witness :
    ((defaultModel.analyze_sentiment "").2.sentiment = "neutral" ∧
     (defaultModel.analyze_sentiment "").2.confidence = 0) ∧
    ((defaultModel.analyze_sentiment "   ").2.sentiment = "neutral" ∧
     (defaultModel.analyze_sentiment "   ").2.confidence = 0) :=
  ⟨C3_blank_text_neutral_zero defaultModel "" (by decide),
   C3_blank_text_neutral_zero defaultModel "   " (by decide)⟩

/-- C10: the batch handler returns one prediction per instance in input
order; a missing or empty `instances` key yields an empty prediction list;
a dict instance with neither `text` nor `data` field is scored as the
empty string, which produces the neutral/0.0 empty-text-marker record. -/
theorem C10_batch_shape (m : SentimentModel) (insts : List BatchInstance) :
    ((m.predict none).2 = [] ∧ (m.predict (some [])).2 = []) ∧
    (m.predict (some insts)).2.length = insts.length ∧
    (∀ j : ℕ, (m.predict (some insts)).2[j]? =
        (insts[j]?).map fun b => (m.analyze_sentiment (instanceText b)).2) ∧
    instanceText (BatchInstance.dict none none) = "" ∧
    (m.analyze_sentiment "").2 =
      { text := "", sentiment := "neutral", confidence := 0.0,
        error := some "Empty text provided" } := by
  refine ⟨⟨rfl, rfl⟩, ?_, ?_, rfl, ?_⟩
  · rw [predict_some_snd, List.length_map]
  · intro j
    rw [predict_some_snd, List.getElem?_map]
  · exact analyze_blank m "" (by simp)

/-- C1: for every lexicon and text, `predict_sentiment` follows the
count-imbalance rule: more positive hits give "positive" with confidence
min(0.9, 0.6 + 0.1·(positive_count − negative_count)) — a value already
equal to its rounding to two decimal places — symmetrically for
"negative", and equal counts (including both zero) give "neutral" with
confidence 0.5. -/
theorem C1_count_imbalance_rule (pos neg : List String) (text : String) :
    (countHits pos (lowerStr text) > countHits neg (lowerStr text) →
      predict_sentiment pos neg text =
        { sentiment := "positive",
          confidence := min 0.9 (0.6 +
            ((countHits pos (lowerStr text) : ℚ) -
              countHits neg (lowerStr text)) * 0.1) }) ∧
    (countHits neg (lowerStr text) > countHits pos (lowerStr text) →
      predict_sentiment pos neg text =
        { sentiment := "negative",
          confidence := min 0.9 (0.6 +
            ((countHits neg (lowerStr text) : ℚ) -
              countHits pos (lowerStr text)) * 0.1) }) ∧
    (countHits pos (lowerStr text) = countHits neg (lowerStr text) →
      predict_sentiment pos neg text = { sentiment := "neutral", confidence := 0.5 }) :=
  ⟨predict_sentiment_pos_eq pos neg text, predict_sentiment_neg_eq pos neg text,
   predict_sentiment_tie_eq pos neg text⟩

theorem C1_count_imbalance_rule_witness :
    (countHits positive_words (lowerStr "I love this amazing product!") >
       countHits negative_words (lowerStr "I love this amazing product!") ∧
     predict_sentiment positive_words negative_words "I love this amazing product!" =
       { sentiment := "positive",
         confidence := min 0.9 (0.6 +
           ((countHits positive_words (lowerStr "I love this amazing product!") : ℚ) -
             countHits negative_words (lowerStr "I love this amazing product!")) * 0.1) }) ∧
    (countHits negative_words (lowerStr "This is terrible and awful") >
       countHits positive_words (lowerStr "This is terrible and awful") ∧
     predict_sentiment positive_words negative_words "This is terrible and awful" =
       { sentiment := "negative",
         confidence := min 0.9 (0.6 +
           ((countHits negative_words (lowerStr "This is terrible and awful") : ℚ) -
             countHits positive_words (lowerStr "This is terrible and awful")) * 0.1) }) ∧
    (countHits positive_words (lowerStr "This is a regular sentence") =
       countHits negative_words (lowerStr "This is a regular sentence") ∧
     predict_sentiment positive_words negative_words "This is a regular sentence" =
       { sentiment := "neutral", confidence := 0.5 }) :=
  ⟨⟨by decide, (C1_count_imbalance_rule positive_words negative_words
      "I love this amazing product!").1 (by decide)⟩,
   ⟨by decide, (C1_count_imbalance_rule positive_words negative_words
      "This is terrible and awful").2.1 (by decide)⟩,
   ⟨by decide, (C1_count_imbalance_rule positive_words negative_words
      "This is a regular sentence").2.2 (by decide)⟩⟩

/-- C2: the confidence reported by both scorer variants always lies in
the closed interval [0, 0.9]. -/
theorem C2_confidence_range (pos neg : List String) (m : SentimentModel)
    (text : String) :
    (0 ≤ (predict_sentiment pos neg text).confidence ∧
     (predict_sentiment pos neg text).confidence ≤ 0.9) ∧
    (0 ≤ (m.analyze_sentiment text).2.confidence ∧
     (m.analyze_sentiment text).2.confidence ≤ 0.9) := by
  have hmin : ∀ a b : ℕ, b < a →
      0 ≤ min (0.9 : ℚ) (0.6 + ((a : ℚ) - b) * 0.1) ∧
      min (0.9 : ℚ) (0.6 + ((a : ℚ) - b) * 0.1) ≤ 0.9 := by
    intro a b h
    constructor
    · refine le_min (by norm_num) ?_
      rw [cast_sub_of_lt h]
      positivity
    · exact min_le_left _ _
  constructor
  · rcases Nat.lt_trichotomy (countHits pos (lowerStr text))
      (countHits neg (lowerStr text)) with h | h | h
    · rw [predict_sentiment_neg_eq pos neg text h]
      exact hmin _ _ h
    · rw [predict_sentiment_tie_eq pos neg text h]
      norm_num
    · rw [predict_sentiment_pos_eq pos neg text h]
      exact hmin _ _ h
  · by_cases hb : isBlank text = true
    · rw [analyze_blankB m text hb]
      norm_num
    · have hb2 : isBlank text = false := by simpa using hb
      rcases Nat.lt_trichotomy (countHits m.positive_words (lowerStr text))
        (countHits m.negative_words (lowerStr text)) with h | h | h
      · rw [analyze_neg_eq m text hb2 h]
        exact hmin _ _ h
      · rw [analyze_tie_eq m text hb2 h]
        norm_num
      · rw [analyze_pos_eq m text hb2 h]
        exact hmin _ _ h

/-- C9: the scorer result is a function of the two hit counts alone (no
other hidden input), the batch predict method returns the model state
unchanged, and a second identical call on the post-state returns the same
predictions. -/
theorem C9_pure_and_stateless (pos neg pos2 neg2 : List String) (t t2 : String)
    (m : SentimentModel) (payload : Option (List BatchInstance)) :
    (countHits pos (lowerStr t) = countHits pos2 (lowerStr t2) →
      countHits neg (lowerStr t) = countHits neg2 (lowerStr t2) →
      predict_sentiment pos neg t = predict_sentiment pos2 neg2 t2) ∧
    (m.predict payload).1 = m ∧
    ((m.predict payload).1.predict payload).2 = (m.predict payload).2 := by
  refine ⟨fun h1 h2 => ?_, predict_fst m payload, ?_⟩
  · simp only [predict_sentiment]
    rw [h1, h2]
  · rw [predict_fst m payload]

theorem C9_pure_and_stateless_witness :
    countHits ["love"] (lowerStr "love it") =
      countHits ["amazing"] (lowerStr "so amazing") ∧
    countHits ["bad"] (lowerStr "love it") =
      countHits ["awful"] (lowerStr "so amazing") ∧
    predict_sentiment ["love"] ["bad"] "love it" =
      predict_sentiment ["amazing"] ["awful"] "so amazing" :=
  ⟨by decide, by decide,
   (C9_pure_and_stateless ["love"] ["bad"] ["amazing"] ["awful"] "love it"
      "so amazing" defaultModel none).1 (by decide) (by decide)⟩

/-- C5: a blank instance inside a batch does not cause the batch to be
rejected: the batch is scored elementwise in order, the blank instance's
record carries the "Empty text provided" error marker with sentiment
"neutral" and confidence 0.0, and every other instance is scored by the
ordinary analysis. -/
theorem C5_blank_instance_in_batch (m : SentimentModel)
    (insts : List BatchInstance) (i : ℕ) (inst : BatchInstance)
    (hi : insts[i]? = some inst)
    (hblank : ∀ c ∈ (instanceText inst).data, isSpaceChar c = true) :
    (m.predict (some insts)).2.length = insts.length ∧
    (m.predict (some insts)).2[i]? =
      some { text := instanceText inst, sentiment := "neutral",
             confidence := 0.0, error := some "Empty text provided" } ∧
    ∀ j : ℕ, (m.predict (some insts)).2[j]? =
      (insts[j]?).map fun b => (m.analyze_sentiment (instanceText b)).2 := by
  refine ⟨?_, ?_, ?_⟩
  · rw [predict_some_snd, List.length_map]
  · rw [predict_some_snd, List.getElem?_map, hi, Option.map_some',
      analyze_blank m (instanceText inst) hblank]
  · intro j
    rw [predict_some_snd, List.getElem?_map]

theorem C5_blank_instance_in_batch_witness :
    ([BatchInstance.str "I love this", BatchInstance.str "   "][1]? =
       some (BatchInstance.str "   ") ∧
     ∀ c ∈ (instanceText (BatchInstance.str "   ")).data, isSpaceChar c = true) ∧
    (defaultModel.predict
       (some [BatchInstance.str "I love this", BatchInstance.str "   "])).2.length = 2 ∧
    (defaultModel.predict
       (some [BatchInstance.str "I love this", BatchInstance.str "   "])).2[1]? =
      some { text := instanceText (BatchInstance.str "   "), sentiment := "neutral",
             confidence := 0.0, error := some "Empty text provided" } :=
  ⟨⟨by decide, by decide⟩,
   (C5_blank_instance_in_batch defaultModel
      [BatchInstance.str "I love this", BatchInstance.str "   "] 1
      (BatchInstance.str "   ") (by decide) (by decide)).1,
   (C5_blank_instance_in_batch defaultModel
      [BatchInstance.str "I love this", BatchInstance.str "   "] 1
      (BatchInstance.str "   ") (by decide) (by decide)).2.1⟩

/-- C7: swapping the positive and negative lexicons on a fixed text swaps
"positive" and "negative" outcomes of the scorer, keeps "neutral" fixed,
preserves the confidence, and the same swap law holds for the training
validator `_predict_single`. -/
theorem C7_lexicon_swap (nm nm2 : String) (r r2 : Bool) (pos neg : List String)
    (text : String) :
    (((SentimentModel.mk nm r pos neg).analyze_sentiment text).2.sentiment = "positive" →
      ((SentimentModel.mk nm2 r2 neg pos).analyze_sentiment text).2.sentiment = "negative" ∧
      ((SentimentModel.mk nm2 r2 neg pos).analyze_sentiment text).2.confidence =
        ((SentimentModel.mk nm r pos neg).analyze_sentiment text).2.confidence) ∧
    (((SentimentModel.mk nm r pos neg).analyze_sentiment text).2.sentiment = "negative" →
      ((SentimentModel.mk nm2 r2 neg pos).analyze_sentiment text).2.sentiment = "positive" ∧
      ((SentimentModel.mk nm2 r2 neg pos).analyze_sentiment text).2.confidence =
        ((SentimentModel.mk nm r pos neg).analyze_sentiment text).2.confidence) ∧
    (((SentimentModel.mk nm r pos neg).analyze_sentiment text).2.sentiment = "neutral" →
      ((SentimentModel.mk nm2 r2 neg pos).analyze_sentiment text).2.sentiment = "neutral" ∧
      ((SentimentModel.mk nm2 r2 neg pos).analyze_sentiment text).2.confidence =
        ((SentimentModel.mk nm r pos neg).analyze_sentiment text).2.confidence) ∧
    (predict_single (some (pos, neg)) text = "positive" →
      predict_single (some (neg, pos)) text = "negative") ∧
    (predict_single (some (pos, neg)) text = "negative" →
      predict_single (some (neg, pos)) text = "positive") ∧
    (predict_single (some (pos, neg)) text = "neutral" →
      predict_single (some (neg, pos)) text = "neutral") := by
  have hps : (predict_single (some (pos, neg)) text = "positive" →
        predict_single (some (neg, pos)) text = "negative") ∧
      (predict_single (some (pos, neg)) text = "negative" →
        predict_single (some (neg, pos)) text = "positive") ∧
      (predict_single (some (pos, neg)) text = "neutral" →
        predict_single (some (neg, pos)) text = "neutral") := by
    rcases Nat.lt_trichotomy (countHits pos (lowerStr text))
      (countHits neg (lowerStr text)) with h | h | h
    · have v1 : predict_single (some (pos, neg)) text = "negative" := by
        simp [predict_single, h, Nat.lt_asymm h]
      have v2 : predict_single (some (neg, pos)) text = "positive" := by
        simp [predict_single, h, Nat.lt_asymm h]
      refine ⟨fun hcon => ?_, fun _ => v2, fun hcon => ?_⟩
      · rw [v1] at hcon; exact absurd hcon (by decide)
      · rw [v1] at hcon; exact absurd hcon (by decide)
    · have v1 : predict_single (some (pos, neg)) text = "neutral" := by
        simp [predict_single, h]
      have v2 : predict_single (some (neg, pos)) text = "neutral" := by
        simp [predict_single, h]
      refine ⟨fun hcon => ?_, fun hcon => ?_, fun _ => v2⟩
      · rw [v1] at hcon; exact absurd hcon (by decide)
      · rw [v1] at hcon; exact absurd hcon (by decide)
    · have v1 : predict_single (some (pos, neg)) text = "positive" := by
        simp [predict_single, h, Nat.lt_asymm h]
      have v2 : predict_single (some (neg, pos)) text = "negative" := by
        simp [predict_single, h, Nat.lt_asymm h]
      refine ⟨fun _ => v2, fun hcon => ?_, fun hcon => ?_⟩
      · rw [v1] at hcon; exact absurd hcon (by decide)
      · rw [v1] at hcon; exact absurd hcon (by decide)
  have han : (((SentimentModel.mk nm r pos neg).analyze_sentiment text).2.sentiment = "positive" →
        ((SentimentModel.mk nm2 r2 neg pos).analyze_sentiment text).2.sentiment = "negative" ∧
        ((SentimentModel.mk nm2 r2 neg pos).analyze_sentiment text).2.confidence =
          ((SentimentModel.mk nm r pos neg).analyze_sentiment text).2.confidence) ∧
      (((SentimentModel.mk nm r pos neg).analyze_sentiment text).2.sentiment = "negative" →
        ((SentimentModel.mk nm2 r2 neg pos).analyze_sentiment text).2.sentiment = "positive" ∧
        ((SentimentModel.mk nm2 r2 neg pos).analyze_sentiment text).2.confidence =
          ((SentimentModel.mk nm r pos neg).analyze_sentiment text).2.confidence) ∧
      (((SentimentModel.mk nm r pos neg).analyze_sentiment text).2.sentiment = "neutral" →
        ((SentimentModel.mk nm2 r2 neg pos).analyze_sentiment text).2.sentiment = "neutral" ∧
        ((SentimentModel.mk nm2 r2 neg pos).analyze_sentiment text).2.confidence =
          ((SentimentModel.mk nm r pos neg).analyze_sentiment text).2.confidence) := by
    by_cases hb : isBlank text = true
    · rw [analyze_blankB (SentimentModel.mk nm r pos neg) text hb,
        analyze_blankB (SentimentModel.mk nm2 r2 neg pos) text hb]
      exact ⟨fun hcon => by simp at hcon,
             fun hcon => by simp at hcon,
             fun _ => ⟨rfl, rfl⟩⟩
    · have hb2 : isBlank text = false := by simpa using hb
      rcases Nat.lt_trichotomy (countHits pos (lowerStr text))
        (countHits neg (lowerStr text)) with h | h | h
      · rw [analyze_neg_eq (SentimentModel.mk nm r pos neg) text hb2 h,
          analyze_pos_eq (SentimentModel.mk nm2 r2 neg pos) text hb2 h]
        exact ⟨fun hcon => by simp at hcon,
               fun _ => ⟨rfl, rfl⟩,
               fun hcon => by simp at hcon⟩
      · rw [analyze_tie_eq (SentimentModel.mk nm r pos neg) text hb2 h,
          analyze_tie_eq (SentimentModel.mk nm2 r2 neg pos) text hb2 h.symm]
        exact ⟨fun hcon => by simp at hcon,
               fun hcon => by simp at hcon,
               fun _ => ⟨rfl, rfl⟩⟩
      · rw [analyze_pos_eq (SentimentModel.mk nm r pos neg) text hb2 h,
          analyze_neg_eq (SentimentModel.mk nm2 r2 neg pos) text hb2 h]
        exact ⟨fun _ => ⟨rfl, rfl⟩,
               fun hcon => by simp at hcon,
               fun hcon => by simp at hcon⟩
  exact ⟨han.1, han.2.1, han.2.2, hps.1, hps.2.1, hps.2.2⟩

theorem C7_lexicon_swap_witness :
    (((SentimentModel.mk "m2" true negative_words positive_words).analyze_sentiment
        "i love this").2.sentiment = "negative" ∧
     ((SentimentModel.mk "m2" true negative_words positive_words).analyze_sentiment
        "i love this").2.confidence =
       ((SentimentModel.mk "m" false positive_words negative_words).analyze_sentiment
        "i love this").2.confidence) ∧
    (((SentimentModel.mk "m2" true negative_words positive_words).analyze_sentiment
        "this is bad").2.sentiment = "positive" ∧
     ((SentimentModel.mk "m2" true negative_words positive_words).analyze_sentiment
        "this is bad").2.confidence =
       ((SentimentModel.mk "m" false positive_words negative_words).analyze_sentiment
        "this is bad").2.confidence) ∧
    (((SentimentModel.mk "m2" true negative_words positive_words).analyze_sentiment
        "nothing here").2.sentiment = "neutral" ∧
     ((SentimentModel.mk "m2" true negative_words positive_words).analyze_sentiment
        "nothing here").2.confidence =
       ((SentimentModel.mk "m" false positive_words negative_words).analyze_sentiment
        "nothing here").2.confidence) ∧
    predict_single (some (negative_words, positive_words)) "i love this" = "negative" ∧
    predict_single (some (negative_words, positive_words)) "this is bad" = "positive" ∧
    predict_single (some (negative_words, positive_words)) "nothing here" = "neutral" :=
  ⟨(C7_lexicon_swap "m" "m2" false true positive_words negative_words
      "i love this").1 (by decide),
   (C7_lexicon_swap "m" "m2" false true positive_words negative_words
      "this is bad").2.1 (by decide),
   (C7_lexicon_swap "m" "m2" false true positive_words negative_words
      "nothing here").2.2.1 (by decide),
   (C7_lexicon_swap "m" "m2" false true positive_words negative_words
      "i love this").2.2.2.1 (by decide),
   (C7_lexicon_swap "m" "m2" false true positive_words negative_words
      "this is bad").2.2.2.2.1 (by decide),
   (C7_lexicon_swap "m" "m2" false true positive_words negative_words
      "nothing here").2.2.2.2.2 (by decide)⟩

/-- C8: lexicon matching is substring containment on the lowercased text,
not whole-word matching: `occursIn` holds exactly when the entry occurs
contiguously inside the text; concretely "sadly" matches the negative
entry "sad" and scores "negative" with confidence 0.7 under the default
lexicon in both scorer variants. -/
theorem C8_substring_semantics :
    (∀ w t : String, occursIn w t = true ↔ ∃ l r : List Char, t.data = l ++ w.data ++ r) ∧
    (defaultModel.analyze_sentiment "sadly").2 =
      { text := "sadly", sentiment := "negative", confidence := 0.7, error := none } ∧
    predict_sentiment positive_words negative_words "sadly" =
      { sentiment := "negative", confidence := 0.7 } := by
  refine ⟨fun w t => substrB_iff w.data t.data, ?_, ?_⟩
  · have hb : isBlank "sadly" = false := by decide
    have hp : countHits defaultModel.positive_words (lowerStr "sadly") = 0 := by decide
    have hn : countHits defaultModel.negative_words (lowerStr "sadly") = 1 := by decide
    rw [analyze_neg_eq defaultModel "sadly" hb
      (by rw [hp, hn]; exact Nat.zero_lt_one)]
    rw [ScoreResult.mk.injEq]
    refine ⟨rfl, rfl, ?_, rfl⟩
    rw [hp, hn]
    norm_num [min_def]
  · have hp : countHits positive_words (lowerStr "sadly") = 0 := by decide
    have hn : countHits negative_words (lowerStr "sadly") = 1 := by decide
    rw [predict_sentiment_neg_eq positive_words negative_words "sadly"
      (by rw [hp, hn]; exact Nat.zero_lt_one)]
    rw [Prediction.mk.injEq]
    refine ⟨rfl, ?_⟩
    rw [hp, hn]
    norm_num [min_def]
